import Mathlib

/-!
Shallow embedding of `src/server.go` from pbivrell/simpleserver: a small
configuration facade for running an HTTP(S) server with graceful shutdown.

The Go source's `Server` struct, its functional options, `NewServer`,
`Shutdown`, `Run`, `WithSigShutdown` and `WithContextShutdown` are
translated below.  Durations (`time.Duration`) are `Int` nanoseconds.
The underlying HTTP stack (`net/http`) is an external collaborator: its
`Server.Shutdown` behaviour is modelled from the Go standard library
documentation, with an explicit server state (listener, in-flight
requests, listener-close error).
-/

namespace SimpleServer

/-- One Go `time.Second` in nanoseconds (`time.Duration` is an `int64`
nanosecond count). -/
def second : Int := 1000000000

/-- Errors the embedded operations can return (`error` values in Go). -/
inductive GoError where
  | deadlineExceeded
  | serverClosed
  | other (msg : String)
deriving DecidableEq, Repr

/-- Cross-origin policy options (`cors.Options` of the external rs/cors
collaborator), kept abstract as the data the policy carries. -/
structure CorsOptions where
  allowedOrigins : List String
  allowedHeaders : List String
deriving DecidableEq, Repr

/-- Request handlers (`http.Handler` values).  `nil` is Go's nil handler
(the zero value of the field), `named` is an arbitrary caller-supplied
handler, and `cors c h` is the wrapper built by `cors.New(c).Handler(h)`. -/
inductive Handler where
  | nil
  | named (id : Nat)
  | cors (opts : CorsOptions) (inner : Handler)
deriving DecidableEq, Repr

/-- State of one `net/http` `http.Server` value: whether its listener is
open, the remaining durations (in nanoseconds) the in-flight requests
still need to complete, and the error, if any, that closing its
listeners would report. -/
structure HttpSrvState where
  listenerOpen : Bool
  inflight : List Int
  closeErr : Option GoError
deriving DecidableEq, Repr

/-- The zero value of `http.Server`: no listener, no connections. -/
def zeroHttpSrv : HttpSrvState :=
  { listenerOpen := false, inflight := [], closeErr := none }

/-- The `Server` struct of `src/server.go` (lines 152-163): exported
configuration fields plus the unexported embedded `srv http.Server`. -/
structure Server where
  Port : Int
  Addr : String
  handler : Handler
  WriteTimeout : Int
  ReadTimeout : Int
  CertFile : String
  KeyFile : String
  ShutdownTimeout : Int
  srv : HttpSrvState
deriving DecidableEq, Repr

/-- The option functions of `src/server.go` (the `serverOpt` values the
source can construct: `WithTLS`, `WithShutdownTimeout`, `WithPort`,
`WithAddr`, `WithHandler`, `WithWriteTimeout`, `WithReadTimeout`,
`WithCorsHandler`). -/
inductive ServerOpt where
  | WithTLS (certFile keyFile : String)
  | WithShutdownTimeout (t : Int)
  | WithPort (port : Int)
  | WithAddr (addr : String)
  | WithHandler (h : Handler)
  | WithWriteTimeout (t : Int)
  | WithReadTimeout (t : Int)
  | WithCorsHandler (h : Handler) (c : CorsOptions)
deriving DecidableEq, Repr

/-- Applying one option to the server, exactly the field mutation each
closure in `src/server.go` performs.  `WithCorsHandler` sets the handler
to the cors wrapping of its own argument `h` (line 220:
`s.Handler = cors.New(c).Handler(h)`). -/
def applyOpt : ServerOpt → Server → Server
  | .WithTLS c k, s => { s with CertFile := c, KeyFile := k }
  | .WithShutdownTimeout t, s => { s with ShutdownTimeout := t }
  | .WithPort p, s => { s with Port := p }
  | .WithAddr a, s => { s with Addr := a }
  | .WithHandler h, s => { s with handler := h }
  | .WithWriteTimeout t, s => { s with WriteTimeout := t }
  | .WithReadTimeout t, s => { s with ReadTimeout := t }
  | .WithCorsHandler h c, s => { s with handler := Handler.cors c h }

/-- The struct literal of `NewServer` (lines 227-233): the five listed
fields get the defaults, every other field gets its Go zero value. -/
def defaultServer : Server :=
  { Port := 8080
    Addr := ""
    handler := Handler.nil
    WriteTimeout := 15 * second
    ReadTimeout := 15 * second
    CertFile := ""
    KeyFile := ""
    ShutdownTimeout := 15 * second
    srv := zeroHttpSrv }

/-- `NewServer` (lines 225-240): start from the defaults, then apply the
options in the order given. -/
def NewServer (opts : List ServerOpt) : Server :=
  opts.foldl (fun s o => applyOpt o s) defaultServer

/-- Modelled from the Go standard library documentation of
`net/http (*Server).Shutdown(ctx)`: it closes the server's open
listeners, then waits for in-flight requests to complete; if the context
expires first (here: some request needs longer than `timeout`
nanoseconds) it returns the context's deadline error, otherwise it
returns the listener-close error (nil when closing succeeded).  It is
defined — returns normally, never crashes — on every server value,
including the zero value.  This is the error value of the call. -/
def netShutdownErr (st : HttpSrvState) (timeout : Int) : Option GoError :=
  if st.inflight.all (fun d => decide (d ≤ timeout)) then
    st.closeErr
  else
    some GoError.deadlineExceeded

/-- Modelled from the Go standard library documentation of
`net/http (*Server).Shutdown(ctx)`, state part: after the call the
listeners are closed and no connection remains (requests that outlived
the deadline are force-closed). -/
def netShutdown (st : HttpSrvState) (timeout : Int) : HttpSrvState × Option GoError :=
  ({ listenerOpen := false, inflight := [], closeErr := st.closeErr },
   netShutdownErr st timeout)

/-- Modelled from the Go standard library documentation of `net/http`:
the time `Shutdown` spends waiting, in nanoseconds — the longest
in-flight request when all drain within the deadline, otherwise the
deadline itself (a context with a non-positive timeout fires at once). -/
def netShutdownElapsed (st : HttpSrvState) (timeout : Int) : Int :=
  if st.inflight.all (fun d => decide (d ≤ timeout)) then
    st.inflight.foldl max 0
  else
    max timeout 0

/-- `Server.Shutdown` (lines 243-248): builds a context with deadline
`s.ShutdownTimeout` and returns `s.srv.Shutdown(ctx)` — note that it
acts on the struct field `s.srv`, nothing else.  Returns the updated
server and the error value. -/
def Server.Shutdown (s : Server) : Server × Option GoError :=
  let r := netShutdown s.srv s.ShutdownTimeout
  ({ s with srv := r.1 }, r.2)

/-- How a call to `Server.Shutdown` terminates: normally (with its
return value) or by crashing.  The modelled collaborator `netShutdown`
always returns, so the call always completes normally. -/
inductive CallOutcome (α : Type) where
  | ok (val : α)
  | panicked (msg : String)
deriving DecidableEq, Repr

/-- Termination behaviour of a `Shutdown` call: it completes normally
with `Server.Shutdown`'s return value (the modelled `net/http`
collaborator is total and never crashes, also on the zero server). -/
def Server.ShutdownOutcome (s : Server) : CallOutcome (Server × Option GoError) :=
  CallOutcome.ok s.Shutdown

/-- Go's `%d` formatting of an integer: decimal digits, with a leading
minus sign when negative. -/
def goFormatInt (n : Int) : String :=
  if n < 0 then "-" ++ toString n.natAbs else toString n.natAbs

/-- The configuration fields of the `http.Server` literal that `Run`
constructs (lines 272-278). -/
structure HttpConfig where
  Addr : String
  WriteTimeout : Int
  ReadTimeout : Int
  IdleTimeout : Int
  handler : Handler
deriving DecidableEq, Repr

/-- The `http.Server` literal built at the top of `Run` (lines 272-278):
`Addr` is `fmt.Sprintf("%s:%d", s.Addr, s.Port)`, read/write timeouts
come from the configuration, the idle timeout is the literal
`time.Second * 60`, and the handler is `s.Handler`. -/
def Server.runConfig (s : Server) : HttpConfig :=
  { Addr := s.Addr ++ ":" ++ goFormatInt s.Port
    WriteTimeout := s.WriteTimeout
    ReadTimeout := s.ReadTimeout
    IdleTimeout := 60 * second
    handler := s.handler }

/-- The transport `Run` serves on. -/
inductive Transport where
  | tls (certFile keyFile : String)
  | plain
deriving DecidableEq, Repr

/-- The branch at lines 280-284 of `Run`: when both `s.CertFile` and
`s.KeyFile` are non-empty it calls `srv.ListenAndServeTLS(s.CertFile,
s.KeyFile)`, otherwise `srv.ListenAndServe()`. -/
def Server.runTransport (s : Server) : Transport :=
  if s.CertFile ≠ "" ∧ s.KeyFile ≠ "" then
    Transport.tls s.CertFile s.KeyFile
  else
    Transport.plain

/-- Lifecycle state after `Run` has been entered: the configuration
object (whose `srv` field `Shutdown` acts on) together with the state of
the local `http.Server` variable `srv` that `Run` created (line 272) —
`none` before `Run` starts it. -/
structure RunState where
  cfg : Server
  localSrv : Option HttpSrvState
deriving DecidableEq, Repr

/-- Entering `Run` (lines 270-285): a fresh local `http.Server` is
built and `ListenAndServe` opens its listener.  The local variable is
never assigned to `s.srv`; the struct field keeps whatever state it
had. -/
def Server.RunStart (s : Server) : RunState :=
  { cfg := s
    localSrv := some { listenerOpen := true, inflight := [], closeErr := none } }

/-- Calling `Shutdown` on the lifecycle state: `Shutdown` reads and
updates only `st.cfg.srv` (line 247 is `s.srv.Shutdown(ctx)`); the
local server created by `Run` is out of its reach. -/
def RunState.shutdownStep (st : RunState) : RunState × Option GoError :=
  let r := st.cfg.Shutdown
  ({ st with cfg := r.1 }, r.2)

/-- The value `ListenAndServe` inside `Run` has returned, if it has:
`none` while the local server's listener is still open (`Run` is still
blocked), `ErrServerClosed` once that listener has been shut down. -/
def RunState.runReturned (st : RunState) : Option GoError :=
  match st.localSrv with
  | some l => if l.listenerOpen then none else some GoError.serverClosed
  | none => none

/-- Events a shutdown trigger performs, in order. -/
inductive WaitEvent where
  | sigReceived (sig : Int)
  | ctxDone
  | shutdownInvoked
deriving DecidableEq, Repr

/-- `Server.WithSigShutdown` (lines 251-259): registers for `sig`,
blocks on one channel receive of that signal, then calls `s.Shutdown()`
and returns its result.  The trace records the blocking receive and the
single `Shutdown` invocation in program order. -/
def Server.WithSigShutdown (s : Server) (sig : Int) :
    List WaitEvent × (Server × Option GoError) :=
  ([WaitEvent.sigReceived sig, WaitEvent.shutdownInvoked], s.Shutdown)

/-- `Server.WithContextShutdown` (lines 262-267): blocks on
`<-ctx.Done()`, then calls `s.Shutdown()` and returns its result. -/
def Server.WithContextShutdown (s : Server) :
    List WaitEvent × (Server × Option GoError) :=
  ([WaitEvent.ctxDone, WaitEvent.shutdownInvoked], s.Shutdown)

/-- Last element of a list, with a default when the list is empty. -/
def lastD {α : Type} : List α → α → α
  | [], d => d
  | a :: l, _ => lastD l a

/-- The port an option writes, if it targets the port field. -/
def portOf : ServerOpt → Option Int
  | .WithPort p => some p
  | _ => none

/-- The address an option writes, if it targets the address field. -/
def addrOf : ServerOpt → Option String
  | .WithAddr a => some a
  | _ => none

/-- The handler an option writes, if it targets the handler field
(`WithHandler` stores its argument, `WithCorsHandler` stores the cors
wrapping of its argument). -/
def handlerOf : ServerOpt → Option Handler
  | .WithHandler h => some h
  | .WithCorsHandler h c => some (Handler.cors c h)
  | _ => none

/-- The write timeout an option writes, if it targets that field. -/
def writeTimeoutOf : ServerOpt → Option Int
  | .WithWriteTimeout t => some t
  | _ => none

/-- The read timeout an option writes, if it targets that field. -/
def readTimeoutOf : ServerOpt → Option Int
  | .WithReadTimeout t => some t
  | _ => none

/-- The shutdown timeout an option writes, if it targets that field. -/
def shutdownTimeoutOf : ServerOpt → Option Int
  | .WithShutdownTimeout t => some t
  | _ => none

/-- The TLS (cert, key) pair an option writes, if it targets those
fields. -/
def tlsOf : ServerOpt → Option (String × String)
  | .WithTLS c k => some (c, k)
  | _ => none

/-- Claim C4: `NewServer` called with no options yields a configuration
with port 8080, empty address (all interfaces), and read, write and
shutdown timeouts each equal to 15 seconds. -/
theorem newServer_defaults :
    (NewServer []).Port = 8080 ∧ (NewServer []).Addr = "" ∧
    (NewServer []).ReadTimeout = 15 * second ∧
    (NewServer []).WriteTimeout = 15 * second ∧
    (NewServer []).ShutdownTimeout = 15 * second :=
  ⟨rfl, rfl, rfl, rfl, rfl⟩

/-- Claim C9: option functions perform no validation: for every integer
`p` (negative or out of range included) `WithPort` stores exactly `p` in
the port field, and for every duration (negative included) the timeout
options store exactly that duration — no rejection, no clamping. -/
theorem options_store_values_unvalidated (s : Server) (p t u v : Int) :
    (applyOpt (ServerOpt.WithPort p) s).Port = p ∧
    (applyOpt (ServerOpt.WithShutdownTimeout t) s).ShutdownTimeout = t ∧
    (applyOpt (ServerOpt.WithWriteTimeout u) s).WriteTimeout = u ∧
    (applyOpt (ServerOpt.WithReadTimeout v) s).ReadTimeout = v :=
  ⟨rfl, rfl, rfl, rfl⟩

/-- Claim C10: `WithCorsHandler` sets the handler to the cross-origin
wrapping of its own argument `h`, whatever the currently configured
handler is; a handler previously set by `WithHandler` is discarded, not
wrapped. -/
theorem corsHandler_discards_previous (s : Server) (h h0 : Handler) (c : CorsOptions) :
    (applyOpt (ServerOpt.WithCorsHandler h c) s).handler = Handler.cors c h ∧
    (applyOpt (ServerOpt.WithCorsHandler h c)
        (applyOpt (ServerOpt.WithHandler h0) s)).handler = Handler.cors c h :=
  ⟨rfl, rfl⟩

/-- Claim C7: `Run` constructs the underlying server bound to the string
`address:port` formed from the configured address and port, serving the
configured handler with the configured read and write timeouts and a
fixed 60-second idle timeout — fixed meaning no option sequence can
change it. -/
theorem run_builds_configured_server (s : Server) (opts : List ServerOpt) :
    s.runConfig.Addr = s.Addr ++ ":" ++ goFormatInt s.Port ∧
    s.runConfig.WriteTimeout = s.WriteTimeout ∧
    s.runConfig.ReadTimeout = s.ReadTimeout ∧
    s.runConfig.handler = s.handler ∧
    s.runConfig.IdleTimeout = 60 * second ∧
    (NewServer opts).runConfig.IdleTimeout = 60 * second :=
  ⟨rfl, rfl, rfl, rfl, rfl, rfl⟩

/-- Claim C8: each shutdown trigger, upon firing, calls `Shutdown`
exactly once and returns its result: `WithSigShutdown`'s trace is one
receive of the requested signal followed by the single `Shutdown`
invocation, and its value is `Shutdown`'s result; likewise
`WithContextShutdown` with the cancellation event. -/
theorem triggers_call_shutdown_once (s : Server) (sig : Int) :
    (s.WithSigShutdown sig).1 = [WaitEvent.sigReceived sig, WaitEvent.shutdownInvoked] ∧
    (s.WithSigShutdown sig).1.count WaitEvent.shutdownInvoked = 1 ∧
    (s.WithSigShutdown sig).2 = s.Shutdown ∧
    s.WithContextShutdown.1 = [WaitEvent.ctxDone, WaitEvent.shutdownInvoked] ∧
    s.WithContextShutdown.1.count WaitEvent.shutdownInvoked = 1 ∧
    s.WithContextShutdown.2 = s.Shutdown := by
  refine ⟨rfl, ?_, rfl, rfl, ?_, rfl⟩ <;> rfl

/-- Claim C2 (divergence evidence): on a `Server` fresh from `NewServer`
on which `Run` has not been called, `Shutdown` completes normally and
returns a nil error — a silent no-op on the zero-value embedded
`http.Server`, not the fatal panic the claim (and the source's own doc
comment, line 242) promises. -/
theorem shutdown_before_run_returns_nil :
    Server.ShutdownOutcome (NewServer []) = CallOutcome.ok (NewServer [], none) :=
  rfl

/-- Claim C1 (divergence evidence): start from `NewServer`'s
configuration, enter `Run` (which opens the listener of its local
`http.Server`), then call `Shutdown`.  `Shutdown` returns nil, yet the
listener `Run` created is still open and `Run` has not returned: the
handle `Run` creates is never stored in `s.srv`, so it is not the one
`Shutdown` consumes, contradicting the claim and the source's own doc
comments (lines 96, 123). -/
theorem run_shutdown_listener_not_closed :
    ((NewServer []).RunStart.shutdownStep).2 = none ∧
    ((NewServer []).RunStart.shutdownStep).1.localSrv =
      some { listenerOpen := true, inflight := [], closeErr := none } ∧
    ((NewServer []).RunStart.shutdownStep).1.runReturned = none :=
  ⟨rfl, rfl, rfl⟩

/-- Helper: when every option either overwrites a field (value `f o`)
or leaves it alone, the fold `NewServer` performs gives the field the
last written value, or the start value when no option writes it. -/
theorem applyOpt_foldl_lastD {β : Type} (f : ServerOpt → Option β) (g : Server → β)
    (hfg : ∀ o s, g (applyOpt o s) = (f o).getD (g s)) :
    ∀ (opts : List ServerOpt) (s : Server),
      g (opts.foldl (fun s o => applyOpt o s) s) = lastD (opts.filterMap f) (g s) := by
  intro opts
  induction opts with
  | nil => intro s; rfl
  | cons o rest ih =>
    intro s
    simp only [List.foldl_cons, List.filterMap_cons]
    rw [ih (applyOpt o s), hfg o s]
    cases hfo : f o with
    | none => rfl
    | some b => rfl

/-- Claim C5: for every option sequence passed to `NewServer`, the
options are applied in order and each field of the final configuration
is the last value written to it (last-write-wins on conflicting
options), with the default retained for fields no option targets. -/
theorem options_last_write_wins (opts : List ServerOpt) :
    (NewServer opts).Port = lastD (opts.filterMap portOf) 8080 ∧
    (NewServer opts).Addr = lastD (opts.filterMap addrOf) "" ∧
    (NewServer opts).handler = lastD (opts.filterMap handlerOf) Handler.nil ∧
    (NewServer opts).WriteTimeout = lastD (opts.filterMap writeTimeoutOf) (15 * second) ∧
    (NewServer opts).ReadTimeout = lastD (opts.filterMap readTimeoutOf) (15 * second) ∧
    (NewServer opts).ShutdownTimeout = lastD (opts.filterMap shutdownTimeoutOf) (15 * second) ∧
    ((NewServer opts).CertFile, (NewServer opts).KeyFile) =
      lastD (opts.filterMap tlsOf) ("", "") := by
  refine ⟨?_, ?_, ?_, ?_, ?_, ?_, ?_⟩
  · exact applyOpt_foldl_lastD portOf (fun s => s.Port)
      (fun o s => by cases o <;> rfl) opts defaultServer
  · exact applyOpt_foldl_lastD addrOf (fun s => s.Addr)
      (fun o s => by cases o <;> rfl) opts defaultServer
  · exact applyOpt_foldl_lastD handlerOf (fun s => s.handler)
      (fun o s => by cases o <;> rfl) opts defaultServer
  · exact applyOpt_foldl_lastD writeTimeoutOf (fun s => s.WriteTimeout)
      (fun o s => by cases o <;> rfl) opts defaultServer
  · exact applyOpt_foldl_lastD readTimeoutOf (fun s => s.ReadTimeout)
      (fun o s => by cases o <;> rfl) opts defaultServer
  · exact applyOpt_foldl_lastD shutdownTimeoutOf (fun s => s.ShutdownTimeout)
      (fun o s => by cases o <;> rfl) opts defaultServer
  · exact applyOpt_foldl_lastD tlsOf (fun s => (s.CertFile, s.KeyFile))
      (fun o s => by cases o <;> rfl) opts defaultServer

/-- Claim C6: if both TLS paths are non-empty, `Run` selects encrypted
transport using those two files; if either is unset (empty), `Run`
serves plaintext. -/
theorem run_transport_selection (s : Server) :
    (s.CertFile ≠ "" → s.KeyFile ≠ "" →
      s.runTransport = Transport.tls s.CertFile s.KeyFile) ∧
    (s.CertFile = "" ∨ s.KeyFile = "" → s.runTransport = Transport.plain) := by
  constructor
  · intro h1 h2
    rw [Server.runTransport, if_pos ⟨h1, h2⟩]
  · intro h
    have hn : ¬ (s.CertFile ≠ "" ∧ s.KeyFile ≠ "") := by
      rcases h with h | h <;> simp [h]
    rw [Server.runTransport, if_neg hn]

/-- Witness for claim C6: with `WithTLS "cert.pem" "key.pem"` applied
the transport is TLS with those files; with no options it is
plaintext. -/
theorem run_transport_selection_witness :
    (NewServer [ServerOpt.WithTLS "cert.pem" "key.pem"]).runTransport =
      Transport.tls "cert.pem" "key.pem" ∧
    (NewServer []).runTransport = Transport.plain := by
  constructor
  · exact (run_transport_selection
      (NewServer [ServerOpt.WithTLS "cert.pem" "key.pem"])).1 (by decide) (by decide)
  · exact (run_transport_selection (NewServer [])).2 (Or.inl rfl)

/-- Helper: a fold of `max` stays below a bound that dominates the
start value and every element. -/
theorem foldl_max_le (l : List Int) (a t : Int) (ha : a ≤ t)
    (h : ∀ d ∈ l, d ≤ t) : l.foldl max a ≤ t := by
  induction l generalizing a with
  | nil => exact ha
  | cons x xs ih =>
    exact ih (max a x) (max_le ha (h x (List.mem_cons_self x xs)))
      (fun d hd => h d (List.mem_cons_of_mem x hd))

/-- Claim C3: `Shutdown` returns an error exactly when some in-flight
request of the server handle it consumes needs longer than the
configured `ShutdownTimeout` (the grace period elapses before
completion) or closing the listeners fails for another reason — and it
waits at most `ShutdownTimeout` (for any non-negative grace period). -/
theorem shutdown_error_iff (s : Server) :
    ((Server.Shutdown s).2 ≠ none ↔
      (∃ d ∈ s.srv.inflight, s.ShutdownTimeout < d) ∨ s.srv.closeErr ≠ none) ∧
    (0 ≤ s.ShutdownTimeout →
      netShutdownElapsed s.srv s.ShutdownTimeout ≤ s.ShutdownTimeout) := by
  constructor
  · show netShutdownErr s.srv s.ShutdownTimeout ≠ none ↔ _
    rw [netShutdownErr]
    by_cases hA : s.srv.inflight.all (fun d => decide (d ≤ s.ShutdownTimeout)) = true
    · rw [if_pos hA]
      simp only [List.all_eq_true, decide_eq_true_eq] at hA
      constructor
      · exact fun he => Or.inr he
      · rintro (⟨d, hd, hlt⟩ | he)
        · exact absurd (hA d hd) (not_le.mpr hlt)
        · exact he
    · rw [if_neg hA]
      simp only [List.all_eq_true, decide_eq_true_eq] at hA
      push_neg at hA
      constructor
      · intro _
        obtain ⟨d, hd, hlt⟩ := hA
        exact Or.inl ⟨d, hd, hlt⟩
      · intro _
        exact Option.some_ne_none _
  · intro ht
    rw [netShutdownElapsed]
    by_cases hA : s.srv.inflight.all (fun d => decide (d ≤ s.ShutdownTimeout)) = true
    · rw [if_pos hA]
      simp only [List.all_eq_true, decide_eq_true_eq] at hA
      exact foldl_max_le s.srv.inflight 0 s.ShutdownTimeout ht hA
    · rw [if_neg hA]
      exact max_le le_rfl ht

/-- A server whose embedded `http.Server` handle has an open listener
and one in-flight request needing 20 seconds, against the default
15-second grace period. -/
def slowServer : Server :=
  { defaultServer with
    srv := { listenerOpen := true, inflight := [20 * second], closeErr := none } }

/-- Witness for claim C3 at `slowServer`: the in-flight request outlasts
the grace period, so `Shutdown` reports an error, and the wait is
bounded by the grace period. -/
theorem shutdown_error_iff_witness :
    (Server.Shutdown slowServer).2 ≠ none ∧
    netShutdownElapsed slowServer.srv slowServer.ShutdownTimeout ≤
      slowServer.ShutdownTimeout := by
  constructor
  · exact (shutdown_error_iff slowServer).1.mpr
      (Or.inl ⟨20 * second, by decide, by decide⟩)
  · exact (shutdown_error_iff slowServer).2 (by decide)

end SimpleServer
